import Mathlib

/-!
# Conreq modal loader

A shallow embedding of `conreq/static-dev/js/modal.js`.

The script keeps two module level variables, `modal_dialog` (a DOM container)
and `modal_loaded` (a boolean), and defines one function, `generate_modal`,
whose body registers three callbacks: the success callback of `get_url`, the
`.fail` callback of the same request, and a `setTimeout` callback with a delay
of 300 ms.

* `Page` is the part of the browser state that the script reads or writes.
  Every jQuery selector used by the script (`#modal-content`,
  `#modal-container`, `#modal-container .loading-animation`) is taken to denote
  one element whose visibility is a boolean; `modal_dialog[0].innerHTML` is a
  string.  Calls to collaborators defined elsewhere are recorded in `log`.
* Each callback is a function `Page → Page`, written statement by statement.
* `World` adds the callbacks that are still pending, and `step` is the browser
  event loop: it runs one call of `generate_modal` or one pending callback.
-/

namespace Conreq

/-- The click event binders called at the end of the success callback
(modal.js, lines 21 to 31), under the names they have in the source. -/
inductive Installer
  | request_click_event
  | series_modal_click_event
  | modal_select_all_click_event
  | modal_expand_click_event
  | row_title_click_event
  | row_checkbox_click_event
  | row_suboption_title_click_event
  | row_suboption_checkbox_click_event
  | report_modal_click_event
  | report_click_event
  | report_selection_modal_click_event
  deriving DecidableEq, Repr

/-- One call from the script to a collaborator: a DOM write, a jQuery
show or hide, a toast, a click event binder, `get_url` or `setTimeout`. -/
inductive Effect
  | set_innerHTML (html : String)
  | loading_animation_hide
  | loading_animation_show
  | modal_content_show
  | modal_content_hide
  | modal_show
  | modal_hide
  | no_response_toast
  | click_event (i : Installer)
  | get_url (modal_url : String)
  | setTimeout (ms : Nat)
  deriving DecidableEq, Repr

/-- The browser state touched by modal.js. -/
structure Page where
  /-- The module level flag `modal_loaded` (line 2). -/
  modal_loaded : Bool
  /-- The value of `modal_dialog[0].innerHTML`. -/
  innerHTML : String
  /-- Whether `#modal-container .loading-animation` is displayed. -/
  loading_animation : Bool
  /-- Whether `#modal-content` is displayed. -/
  modal_content : Bool
  /-- Whether the `#modal-container` modal is shown. -/
  modal_container : Bool
  /-- How many times `conreq_no_response_toast_message` has been called. -/
  toasts : Nat
  /-- The click event binders called so far, oldest first. -/
  installed : List Installer
  /-- Every collaborator call made so far, oldest first. -/
  log : List Effect
  deriving DecidableEq, Repr

/-- Assignment `modal_dialog[0].innerHTML = html`. -/
def set_innerHTML (html : String) (p : Page) : Page :=
  { p with innerHTML := html, log := p.log ++ [Effect.set_innerHTML html] }

/-- The call `$("#modal-container .loading-animation").hide()`. -/
def loading_animation_hide (p : Page) : Page :=
  { p with loading_animation := false, log := p.log ++ [Effect.loading_animation_hide] }

/-- The call `$("#modal-container .loading-animation").show()`. -/
def loading_animation_show (p : Page) : Page :=
  { p with loading_animation := true, log := p.log ++ [Effect.loading_animation_show] }

/-- The call `$("#modal-content").show()`. -/
def modal_content_show (p : Page) : Page :=
  { p with modal_content := true, log := p.log ++ [Effect.modal_content_show] }

/-- The call `$("#modal-content").hide()`. -/
def modal_content_hide (p : Page) : Page :=
  { p with modal_content := false, log := p.log ++ [Effect.modal_content_hide] }

/-- The call `$("#modal-container").modal("show")`. -/
def modal_show (p : Page) : Page :=
  { p with modal_container := true, log := p.log ++ [Effect.modal_show] }

/-- The call `$("#modal-container").modal("hide")`. -/
def modal_hide (p : Page) : Page :=
  { p with modal_container := false, log := p.log ++ [Effect.modal_hide] }

/-- The call `conreq_no_response_toast_message()`. -/
def conreq_no_response_toast_message (p : Page) : Page :=
  { p with toasts := p.toasts + 1, log := p.log ++ [Effect.no_response_toast] }

/-- A call of one click event binder. -/
def click_event (i : Installer) (p : Page) : Page :=
  { p with installed := p.installed ++ [i], log := p.log ++ [Effect.click_event i] }

/-- The success callback handed to `get_url` (modal.js, lines 8 to 32).
`sanitize` stands for `DOMPurify.sanitize`. -/
def success_callback (sanitize : String → String) (modal_html : String) (p : Page) : Page :=
  -- Save that the modal was successfully loaded
  let p := { p with modal_loaded := true }
  -- Place the new HTML on the page
  let p := set_innerHTML (sanitize modal_html) p
  -- Show the new content
  let p := loading_animation_hide p
  let p := modal_content_show p
  let p := modal_show p
  -- Add click events
  let p := click_event Installer.request_click_event p
  let p := click_event Installer.series_modal_click_event p
  let p := click_event Installer.modal_select_all_click_event p
  let p := click_event Installer.modal_expand_click_event p
  let p := click_event Installer.row_title_click_event p
  let p := click_event Installer.row_checkbox_click_event p
  let p := click_event Installer.row_suboption_title_click_event p
  let p := click_event Installer.row_suboption_checkbox_click_event p
  let p := click_event Installer.report_modal_click_event p
  let p := click_event Installer.report_click_event p
  let p := click_event Installer.report_selection_modal_click_event p
  p

/-- The `.fail` callback of the request (modal.js, lines 32 to 36). -/
def fail_callback (p : Page) : Page :=
  -- Server couldn't fetch the modal
  let p := conreq_no_response_toast_message p
  let p := modal_hide p
  p

/-- The callback handed to `setTimeout` (modal.js, lines 39 to 46). -/
def timeout_callback (p : Page) : Page :=
  if !p.modal_loaded then
    -- Show the loading icon
    let p := modal_content_hide p
    let p := modal_show p
    let p := loading_animation_show p
    p
  else p

/-- The page together with the callbacks that have been registered and have
not run yet.  Calls of `generate_modal` are numbered in the order they are
made; a pending request carries its url, a pending timer its delay. -/
structure World where
  page : Page
  /-- Requests in flight: call number and url. -/
  fetches : List (Nat × String)
  /-- Timers not yet fired: call number and delay in milliseconds. -/
  timers : List (Nat × Nat)
  /-- The number of calls of `generate_modal` made so far. -/
  calls : Nat
  deriving DecidableEq, Repr

/-- The synchronous body of `generate_modal` (modal.js, lines 5 to 47): reset
the flag, start the request, start the timer. -/
def generate_modal (modal_url : String) (w : World) : World :=
  let p := { w.page with modal_loaded := false }
  let p := { p with log := p.log ++ [Effect.get_url modal_url] }
  let p := { p with log := p.log ++ [Effect.setTimeout 300] }
  { page := p
    fetches := w.fetches ++ [(w.calls, modal_url)]
    timers := w.timers ++ [(w.calls, 300)]
    calls := w.calls + 1 }

/-- What the event loop can do next. -/
inductive Event
  /-- The page calls `generate_modal(modal_url)`. -/
  | invoke (modal_url : String)
  /-- The request of call `call` succeeds with body `modal_html`. -/
  | resolve (call : Nat) (modal_html : String)
  /-- The request of call `call` fails. -/
  | reject (call : Nat)
  /-- The timer of call `call` fires. -/
  | timeout (call : Nat)
  deriving DecidableEq, Repr

/-- Whether the request of call `c` is still in flight. -/
def has_fetch (c : Nat) (w : World) : Bool :=
  w.fetches.any (fun t => t.1 == c)

/-- Whether the timer of call `c` has not fired yet. -/
def has_timer (c : Nat) (w : World) : Bool :=
  w.timers.any (fun t => t.1 == c)

/-- One turn of the event loop.  A callback runs only if it is pending, and
is no longer pending afterwards: a request settles once, a timer fires once. -/
def step (sanitize : String → String) (w : World) : Event → Option World
  | Event.invoke modal_url => some (generate_modal modal_url w)
  | Event.resolve c modal_html =>
    if has_fetch c w then
      some { w with page := success_callback sanitize modal_html w.page
                    fetches := w.fetches.filter (fun t => t.1 != c) }
    else none
  | Event.reject c =>
    if has_fetch c w then
      some { w with page := fail_callback w.page
                    fetches := w.fetches.filter (fun t => t.1 != c) }
    else none
  | Event.timeout c =>
    if has_timer c w then
      some { w with page := timeout_callback w.page
                    timers := w.timers.filter (fun t => t.1 != c) }
    else none

/-- Run a schedule of events, failing if one of them is not enabled. -/
def run (sanitize : String → String) (w : World) : List Event → Option World
  | [] => some w
  | e :: es => (step sanitize w e).bind (fun w1 => run sanitize w1 es)

/-- A world with page `p`, `k` earlier calls and nothing pending. -/
def idle (p : Page) (k : Nat) : World :=
  { page := p, fetches := [], timers := [], calls := k }

/-- The installers in the order the specification lists them: request, series,
select-all, expand, row-title, row-checkbox, row-suboption-title,
row-suboption-checkbox, report-modal, report, report-selection-modal. -/
def listed_installers : List Installer :=
  [ Installer.request_click_event
  , Installer.series_modal_click_event
  , Installer.modal_select_all_click_event
  , Installer.modal_expand_click_event
  , Installer.row_title_click_event
  , Installer.row_checkbox_click_event
  , Installer.row_suboption_title_click_event
  , Installer.row_suboption_checkbox_click_event
  , Installer.report_modal_click_event
  , Installer.report_click_event
  , Installer.report_selection_modal_click_event ]

/-- The collaborator calls made by one run of the success callback on a
fragment whose sanitized form is `clean`. -/
def success_effects (clean : String) : List Effect :=
  [ Effect.set_innerHTML clean
  , Effect.loading_animation_hide
  , Effect.modal_content_show
  , Effect.modal_show ] ++ listed_installers.map Effect.click_event

/-- Whether `pat` is an initial segment of the second list. -/
def starts_with : List Char → List Char → Bool
  | [], _ => true
  | _ :: _, [] => false
  | a :: as, b :: bs => a == b && starts_with as bs

/-- Whether `pat` occurs as a contiguous block of the second list. -/
def occurs_in (pat : List Char) : List Char → Bool
  | [] => starts_with pat []
  | c :: cs => starts_with pat (c :: cs) || occurs_in pat cs

/-- Whether a piece of markup contains the opening of a script tag, in any
letter case. -/
def contains_script_tag (html : String) : Bool :=
  occurs_in "<script".toList (html.toList.map Char.toLower)

/-- A page right after page load: flag false (line 2), nothing shown. -/
def blank : Page :=
  { modal_loaded := false, innerHTML := "", loading_animation := false,
    modal_content := false, modal_container := false, toasts := 0,
    installed := [], log := [] }

/-- The strings assigned to `modal_dialog[0].innerHTML` in a log, oldest
first. -/
def writes : List Effect → List String
  | [] => []
  | Effect.set_innerHTML html :: es => html :: writes es
  | _ :: es => writes es

/-- A sanitizer used as an example: it deletes every angle bracket. -/
def strip_brackets (html : String) : String :=
  String.mk (html.toList.filter (fun c => c != '<' && c != '>'))

/-- Modelled from the spec: the success callback of the design notes variant
in which `modal_loaded` is replaced by "a locally scoped state variable
captured by the async operation's closure".  This variant is not in the
source; the callback is the source one without the write to the shared
flag. -/
def percall_success_callback (sanitize : String → String) (modal_html : String)
    (p : Page) : Page :=
  let p := set_innerHTML (sanitize modal_html) p
  let p := loading_animation_hide p
  let p := modal_content_show p
  let p := modal_show p
  let p := click_event Installer.request_click_event p
  let p := click_event Installer.series_modal_click_event p
  let p := click_event Installer.modal_select_all_click_event p
  let p := click_event Installer.modal_expand_click_event p
  let p := click_event Installer.row_title_click_event p
  let p := click_event Installer.row_checkbox_click_event p
  let p := click_event Installer.row_suboption_title_click_event p
  let p := click_event Installer.row_suboption_checkbox_click_event p
  let p := click_event Installer.report_modal_click_event p
  let p := click_event Installer.report_click_event p
  let p := click_event Installer.report_selection_modal_click_event p
  p

/-- Modelled from the spec: the timer callback of the per-call variant of the
design notes; `loaded` is the flag of the call that started the timer. -/
def percall_timeout_callback (loaded : Bool) (p : Page) : Page :=
  if !loaded then
    let p := modal_content_hide p
    let p := modal_show p
    let p := loading_animation_show p
    p
  else p

/-- Modelled from the spec: the world of the per-call variant of the design
notes.  `loaded` lists the calls whose own flag is true. -/
structure PerCallWorld where
  page : Page
  loaded : List Nat
  fetches : List (Nat × String)
  timers : List (Nat × Nat)
  calls : Nat
  deriving DecidableEq, Repr

/-- Modelled from the spec: one turn of the event loop for the per-call
variant of the design notes.  A new call starts with its own flag false. -/
def percall_step (sanitize : String → String) (w : PerCallWorld) :
    Event → Option PerCallWorld
  | Event.invoke modal_url =>
    some { page := { w.page with
                     log := w.page.log ++ [Effect.get_url modal_url] ++ [Effect.setTimeout 300] }
           loaded := w.loaded.filter (fun c => c != w.calls)
           fetches := w.fetches ++ [(w.calls, modal_url)]
           timers := w.timers ++ [(w.calls, 300)]
           calls := w.calls + 1 }
  | Event.resolve c modal_html =>
    if w.fetches.any (fun t => t.1 == c) then
      some { w with page := percall_success_callback sanitize modal_html w.page
                    loaded := c :: w.loaded
                    fetches := w.fetches.filter (fun t => t.1 != c) }
    else none
  | Event.reject c =>
    if w.fetches.any (fun t => t.1 == c) then
      some { w with page := fail_callback w.page
                    fetches := w.fetches.filter (fun t => t.1 != c) }
    else none
  | Event.timeout c =>
    if w.timers.any (fun t => t.1 == c) then
      some { w with page := percall_timeout_callback (w.loaded.contains c) w.page
                    timers := w.timers.filter (fun t => t.1 != c) }
    else none

/-- Modelled from the spec: a per-call world with page `p`, `k` earlier calls
and nothing pending. -/
def percall_idle (p : Page) (k : Nat) : PerCallWorld :=
  { page := p, loaded := [], fetches := [], timers := [], calls := k }

/-- The world after `generate_modal(modal_url)` is called in an idle world. -/
def started (p : Page) (k : Nat) (modal_url : String) : World :=
  { page := { p with
              modal_loaded := false
              log := p.log ++ [Effect.get_url modal_url, Effect.setTimeout 300] }
    fetches := [(k, modal_url)]
    timers := [(k, 300)]
    calls := k + 1 }

/-! ## Theorems -/

/-- C4: for every prior state (whatever `modal_loaded` was, whatever is
pending) and every url, calling `generate_modal` is always possible, and right
after its synchronous body `modal_loaded` is false, while both callbacks of the
new call are still pending, so none of them has run. -/
theorem generate_modal_resets_modal_loaded (sanitize : String → String) (w : World)
    (modal_url : String) :
    step sanitize w (Event.invoke modal_url) = some (generate_modal modal_url w) ∧
    (generate_modal modal_url w).page.modal_loaded = false ∧
    has_fetch w.calls (generate_modal modal_url w) = true ∧
    has_timer w.calls (generate_modal modal_url w) = true := by
  refine ⟨rfl, rfl, ?_, ?_⟩
  · simp [has_fetch, generate_modal]
  · simp [has_timer, generate_modal]

/-- C8: the timer callback, run on any page.  With `modal_loaded` true it
returns the page unchanged.  With `modal_loaded` false it hides the content
area, shows the modal and shows the loading animation, and leaves
`modal_loaded`, the container content, the toast count and the record of
installed handlers as they were.  The failure callback does not touch
`modal_loaded`, so the same holds after a failed fetch. -/
theorem timeout_callback_frame (p : Page) :
    timeout_callback { p with modal_loaded := true } = { p with modal_loaded := true } ∧
    (timeout_callback { p with modal_loaded := false }).modal_content = false ∧
    (timeout_callback { p with modal_loaded := false }).modal_container = true ∧
    (timeout_callback { p with modal_loaded := false }).loading_animation = true ∧
    (timeout_callback { p with modal_loaded := false }).modal_loaded = false ∧
    (timeout_callback { p with modal_loaded := false }).innerHTML = p.innerHTML ∧
    (timeout_callback { p with modal_loaded := false }).toasts = p.toasts ∧
    (timeout_callback { p with modal_loaded := false }).installed = p.installed ∧
    (fail_callback p).modal_loaded = p.modal_loaded ∧
    timeout_callback (fail_callback p) =
      (if p.modal_loaded then fail_callback p
       else { fail_callback p with
              modal_content := false, modal_container := true, loading_animation := true,
              log := (fail_callback p).log ++ [Effect.modal_content_hide, Effect.modal_show,
                Effect.loading_animation_show] }) := by
  refine ⟨rfl, rfl, rfl, rfl, rfl, rfl, rfl, rfl, rfl, ?_⟩
  cases h : p.modal_loaded <;>
    simp [timeout_callback, fail_callback, conreq_no_response_toast_message, modal_hide,
      modal_content_hide, modal_show, loading_animation_show, h]

/-- The success callback, as a change of the page: flag set, content replaced
by the sanitized fragment, loading animation hidden, content and modal shown,
the listed installers appended to the record, `success_effects` appended to
the log. -/
theorem success_callback_eq (sanitize : String → String) (modal_html : String) (p : Page) :
    success_callback sanitize modal_html p =
      { modal_loaded := true
        innerHTML := sanitize modal_html
        loading_animation := false
        modal_content := true
        modal_container := true
        toasts := p.toasts
        installed := p.installed ++ listed_installers
        log := p.log ++ success_effects (sanitize modal_html) } := by
  simp [success_callback, set_innerHTML, loading_animation_hide, modal_content_show,
    modal_show, click_event, listed_installers, success_effects]

/-- C7 (as stated, refuted): on the blank page the success callback calls
eleven different installers, not ten. -/
theorem installers_not_ten :
    ¬ ((success_callback (fun s => s) "" blank).installed.toFinset.card = 10) := by
  decide

/-- C7 (amended): whatever the sanitizer, the fragment and the page, the
installers that the success callback calls are the same eleven pairwise
different named functions. -/
theorem installers_eleven :
    ∃ l : List Installer,
      (∀ (sanitize : String → String) (modal_html : String) (p : Page),
        (success_callback sanitize modal_html p).installed = p.installed ++ l) ∧
      l.Nodup ∧ l.length = 11 ∧ l.toFinset.card = 11 := by
  refine ⟨listed_installers, ?_, by decide, by decide, by decide⟩
  intro sanitize modal_html p
  rw [success_callback_eq]

/-- The timer callback on a page whose flag is false. -/
theorem timeout_callback_not_loaded (p : Page) (h : p.modal_loaded = false) :
    timeout_callback p =
      { p with
        modal_content := false, modal_container := true, loading_animation := true,
        log := p.log ++ [Effect.modal_content_hide, Effect.modal_show,
          Effect.loading_animation_show] } := by
  simp [timeout_callback, modal_content_hide, modal_show, loading_animation_show, h]

/-- The timer callback on a page whose flag is true does nothing. -/
theorem timeout_callback_loaded (p : Page) (h : p.modal_loaded = true) :
    timeout_callback p = p := by
  simp [timeout_callback, h]

/-- The failure callback, as a change of the page. -/
theorem fail_callback_eq (p : Page) :
    fail_callback p =
      { p with
        toasts := p.toasts + 1, modal_container := false,
        log := p.log ++ [Effect.no_response_toast, Effect.modal_hide] } := by
  simp [fail_callback, conreq_no_response_toast_message, modal_hide]

/-- Calling `generate_modal` in an idle world. -/
theorem generate_modal_idle (p : Page) (k : Nat) (modal_url : String) :
    generate_modal modal_url (idle p k) = started p k modal_url := by
  simp [generate_modal, idle, started]

/-- C2: one call whose success callback runs before its timer callback.  All
three steps are enabled; the call itself leaves the loading animation as it
was, the success callback hides it, and the timer callback changes nothing, so
no step shows it (the log gains no `loading_animation_show`).  In the final
state the content container is visible, the modal is shown and the container
holds the sanitized fragment. -/
theorem success_before_timeout (sanitize : String → String) (p : Page) (k : Nat)
    (modal_url modal_html : String) :
    ∃ w1 w2 w3 : World,
      step sanitize (idle p k) (Event.invoke modal_url) = some w1 ∧
      step sanitize w1 (Event.resolve k modal_html) = some w2 ∧
      step sanitize w2 (Event.timeout k) = some w3 ∧
      w1.page.loading_animation = p.loading_animation ∧
      w2.page.loading_animation = false ∧
      w3.page = w2.page ∧
      w3.page.loading_animation = false ∧
      w3.page.modal_content = true ∧
      w3.page.modal_container = true ∧
      w3.page.innerHTML = sanitize modal_html ∧
      w3.page.log = p.log ++ ([Effect.get_url modal_url, Effect.setTimeout 300] ++
        success_effects (sanitize modal_html)) ∧
      Effect.loading_animation_show ∉ ([Effect.get_url modal_url, Effect.setTimeout 300] ++
        success_effects (sanitize modal_html)) := by
  refine ⟨started p k modal_url,
    { started p k modal_url with
      page := success_callback sanitize modal_html (started p k modal_url).page
      fetches := [] },
    { started p k modal_url with
      page := success_callback sanitize modal_html (started p k modal_url).page
      fetches := []
      timers := [] }, ?_, ?_, ?_, rfl, ?_, rfl, ?_, ?_, ?_, ?_, ?_, ?_⟩
  · simp [step, generate_modal_idle]
  · simp [step, has_fetch, started]
  · simp [step, has_timer, started, timeout_callback_loaded, success_callback_eq]
  all_goals simp [success_callback_eq, started, success_effects, listed_installers]

/-- C3: one call whose timer callback runs before its success callback.
All three steps are enabled.  After the timer callback the loading animation
is shown, the content area hidden and the modal shown, and the only callback
still pending is the request, so this lasts until the request settles.  The
success callback then sets `modal_loaded`, hides the loading animation, shows
the content container and the modal, and puts the sanitized fragment in the
container. -/
theorem timeout_before_success (sanitize : String → String) (p : Page) (k : Nat)
    (modal_url modal_html : String) :
    ∃ w1 w2 w3 : World,
      step sanitize (idle p k) (Event.invoke modal_url) = some w1 ∧
      step sanitize w1 (Event.timeout k) = some w2 ∧
      step sanitize w2 (Event.resolve k modal_html) = some w3 ∧
      w2.page.loading_animation = true ∧
      w2.page.modal_content = false ∧
      w2.page.modal_container = true ∧
      w2.page.modal_loaded = false ∧
      w2.timers = [] ∧ w2.fetches = [(k, modal_url)] ∧
      w3.page.modal_loaded = true ∧
      w3.page.loading_animation = false ∧
      w3.page.modal_content = true ∧
      w3.page.modal_container = true ∧
      w3.page.innerHTML = sanitize modal_html ∧
      w3.timers = [] ∧ w3.fetches = [] := by
  refine ⟨started p k modal_url,
    { started p k modal_url with
      page := timeout_callback (started p k modal_url).page
      timers := [] },
    { started p k modal_url with
      page := success_callback sanitize modal_html
        (timeout_callback (started p k modal_url).page)
      timers := []
      fetches := [] }, ?_, ?_, ?_, ?_, ?_, ?_, ?_, rfl, rfl, ?_, ?_, ?_, ?_, ?_, rfl, rfl⟩
  · simp [step, generate_modal_idle]
  · simp [step, has_timer, started]
  · simp [step, has_fetch, started]
  all_goals simp [success_callback_eq, timeout_callback_not_loaded, started]

/-- C9: one call whose request never settles.  The call and its timer
callback are enabled; after the timer callback the modal is shown with the
loading animation visible and the content area hidden, and no toast has been
triggered.  From then on the timer is spent: the only events still enabled are
the settling of this very request, which by assumption never happens, and new
calls of `generate_modal`.  So no further step of the call exists that could
change the state or trigger a notification. -/
theorem hanging_fetch_keeps_spinner (sanitize : String → String) (p : Page) (k : Nat)
    (modal_url : String) :
    ∃ w1 w2 : World,
      step sanitize (idle p k) (Event.invoke modal_url) = some w1 ∧
      step sanitize w1 (Event.timeout k) = some w2 ∧
      w2.page.modal_container = true ∧
      w2.page.loading_animation = true ∧
      w2.page.modal_content = false ∧
      w2.page.toasts = p.toasts ∧
      w2.timers = [] ∧
      (∀ c : Nat, step sanitize w2 (Event.timeout c) = none) ∧
      (∀ (e : Event) (w3 : World), step sanitize w2 e = some w3 →
        (∃ u, e = Event.invoke u) ∨ (∃ h, e = Event.resolve k h) ∨ e = Event.reject k) := by
  refine ⟨started p k modal_url,
    { started p k modal_url with
      page := timeout_callback (started p k modal_url).page
      timers := [] }, ?_, ?_, ?_, ?_, ?_, ?_, rfl, ?_, ?_⟩
  · simp [step, generate_modal_idle]
  · simp [step, has_timer, started]
  · simp [timeout_callback_not_loaded, started]
  · simp [timeout_callback_not_loaded, started]
  · simp [timeout_callback_not_loaded, started]
  · simp [timeout_callback_not_loaded, started]
  · intro c
    simp [step, has_timer]
  · intro e w3 h
    cases e with
    | invoke u => exact Or.inl ⟨u, rfl⟩
    | resolve c html =>
      by_cases hc : c = k
      · subst hc
        exact Or.inr (Or.inl ⟨html, rfl⟩)
      · exfalso
        have hk : ¬ k = c := fun h => hc h.symm
        simp [step, has_fetch, started, hk] at h
    | reject c =>
      by_cases hc : c = k
      · subst hc
        exact Or.inr (Or.inr rfl)
      · exfalso
        have hk : ¬ k = c := fun h => hc h.symm
        simp [step, has_fetch, started, hk] at h
    | timeout c =>
      exfalso
      simp [step, has_timer] at h

/-- C1 (the code at the failing input): one call whose request fails before
the timer fires.  All three steps are enabled and exactly one toast is
triggered, but the timer callback still finds `modal_loaded` false and shows
the modal again, with the loading animation, after the failure callback hid
it: the modal ends shown, not hidden.  When the failure comes after the timer
the modal does end hidden, again with exactly one toast. -/
theorem fail_before_timeout_ends_shown (sanitize : String → String) (p : Page) (k : Nat)
    (modal_url : String) :
    (∃ w : World,
      run sanitize (idle p k) [Event.invoke modal_url, Event.reject k, Event.timeout k]
        = some w ∧
      w.page.modal_container = true ∧
      w.page.loading_animation = true ∧
      w.page.modal_content = false ∧
      w.page.toasts = p.toasts + 1 ∧
      w.fetches = [] ∧ w.timers = []) ∧
    (∃ w : World,
      run sanitize (idle p k) [Event.invoke modal_url, Event.timeout k, Event.reject k]
        = some w ∧
      w.page.modal_container = false ∧
      w.page.toasts = p.toasts + 1 ∧
      w.fetches = [] ∧ w.timers = []) := by
  constructor
  · refine ⟨{ started p k modal_url with
      page := timeout_callback (fail_callback (started p k modal_url).page)
      timers := []
      fetches := [] }, ?_, ?_, ?_, ?_, ?_, rfl, rfl⟩
    · simp [run, step, generate_modal_idle, has_fetch, has_timer, started]
    all_goals simp [timeout_callback_not_loaded, fail_callback_eq, started]
  · refine ⟨{ started p k modal_url with
      page := fail_callback (timeout_callback (started p k modal_url).page)
      timers := []
      fetches := [] }, ?_, ?_, ?_, rfl, rfl⟩
    · simp [run, step, generate_modal_idle, has_fetch, has_timer, started]
    all_goals simp [timeout_callback_not_loaded, fail_callback_eq, started]

/-- The writes recorded in a log made of two parts. -/
theorem writes_append (a b : List Effect) : writes (a ++ b) = writes a ++ writes b := by
  induction a with
  | nil => rfl
  | cons e es ih => cases e <;> simp [writes, ih]

/-- Calling the installers of a list one after the other. -/
theorem foldl_click_event (l : List Installer) (q : Page) :
    l.foldl (fun a i => click_event i a) q =
      { q with installed := q.installed ++ l, log := q.log ++ l.map Effect.click_event } := by
  induction l generalizing q with
  | nil => simp
  | cons i l ih =>
    rw [List.foldl_cons, ih]
    simp [click_event]

/-- C5: for a successful load in either order of the success and timer
callbacks, the record of installer calls grows by exactly the listed
installers in the listed order, each of them occurring once, and the container
ends holding the sanitized fragment.  The installers run only after the
sanitized content is in place: the success callback is the run of the listed
installers, in order, from a page whose container already holds the sanitized
fragment and on which no installer of this load has been called, and no
installer changes the container; in the log they come after the write of the
sanitized fragment.  Neither the timer callback nor the failure callback calls
an installer. -/
theorem installers_once_in_order (sanitize : String → String) (p : Page) (k : Nat)
    (modal_url modal_html : String) :
    (∃ w : World,
      run sanitize (idle p k)
        [Event.invoke modal_url, Event.resolve k modal_html, Event.timeout k] = some w ∧
      w.page.installed = p.installed ++ listed_installers ∧
      w.page.innerHTML = sanitize modal_html ∧
      w.page.log = p.log ++
        ([Effect.get_url modal_url, Effect.setTimeout 300,
          Effect.set_innerHTML (sanitize modal_html), Effect.loading_animation_hide,
          Effect.modal_content_show, Effect.modal_show] ++
         listed_installers.map Effect.click_event)) ∧
    (∃ w : World,
      run sanitize (idle p k)
        [Event.invoke modal_url, Event.timeout k, Event.resolve k modal_html] = some w ∧
      w.page.installed = p.installed ++ listed_installers ∧
      w.page.innerHTML = sanitize modal_html ∧
      w.page.log = p.log ++
        ([Effect.get_url modal_url, Effect.setTimeout 300,
          Effect.modal_content_hide, Effect.modal_show, Effect.loading_animation_show,
          Effect.set_innerHTML (sanitize modal_html), Effect.loading_animation_hide,
          Effect.modal_content_show, Effect.modal_show] ++
         listed_installers.map Effect.click_event)) ∧
    (∀ i : Installer, listed_installers.count i = 1) ∧
    (∀ q : Page, ∃ q1 : Page,
      q1.innerHTML = sanitize modal_html ∧
      q1.installed = q.installed ∧
      q1.log = q.log ++ [Effect.set_innerHTML (sanitize modal_html),
        Effect.loading_animation_hide, Effect.modal_content_show, Effect.modal_show] ∧
      success_callback sanitize modal_html q =
        listed_installers.foldl (fun a i => click_event i a) q1) ∧
    (∀ (i : Installer) (q : Page), (click_event i q).innerHTML = q.innerHTML) ∧
    (∀ q : Page, (success_callback sanitize modal_html q).innerHTML = sanitize modal_html) ∧
    (∀ q : Page, (timeout_callback q).installed = q.installed ∧
      ∀ i : Installer, (timeout_callback q).log.count (Effect.click_event i)
        = q.log.count (Effect.click_event i)) ∧
    (∀ q : Page, (fail_callback q).installed = q.installed ∧
      ∀ i : Installer, (fail_callback q).log.count (Effect.click_event i)
        = q.log.count (Effect.click_event i)) := by
  refine ⟨?_, ?_, ?_, ?_, ?_, ?_, ?_, ?_⟩
  · refine ⟨{ started p k modal_url with
      page := success_callback sanitize modal_html (started p k modal_url).page
      timers := []
      fetches := [] }, ?_, ?_, ?_, ?_⟩
    · simp [run, step, generate_modal_idle, has_fetch, has_timer, started,
        timeout_callback_loaded, success_callback_eq]
    all_goals simp [success_callback_eq, started, success_effects]
  · refine ⟨{ started p k modal_url with
      page := success_callback sanitize modal_html
        (timeout_callback (started p k modal_url).page)
      timers := []
      fetches := [] }, ?_, ?_, ?_, ?_⟩
    · simp [run, step, generate_modal_idle, has_fetch, has_timer, started]
    all_goals simp [success_callback_eq, timeout_callback_not_loaded, started, success_effects]
  · intro i
    cases i <;> decide
  · intro q
    refine ⟨modal_show (modal_content_show (loading_animation_hide
      (set_innerHTML (sanitize modal_html) { q with modal_loaded := true }))), ?_, ?_, ?_, ?_⟩
    · rfl
    · rfl
    · simp [modal_show, modal_content_show, loading_animation_hide, set_innerHTML]
    · rw [foldl_click_event, success_callback_eq]
      simp [modal_show, modal_content_show, loading_animation_hide, set_innerHTML,
        success_effects]
  · intro i q
    rfl
  · intro q
    simp [success_callback_eq]
  · intro q
    cases h : q.modal_loaded
    · simp [timeout_callback_not_loaded, h]
    · simp [timeout_callback_loaded, h]
  · intro q
    simp [fail_callback_eq]

/-- The container after the success callback holds the sanitizer output. -/
theorem success_callback_innerHTML (sanitize : String → String) (modal_html : String)
    (q : Page) : (success_callback sanitize modal_html q).innerHTML = sanitize modal_html := by
  rw [success_callback_eq]

/-- The success callback writes the sanitizer output, once, and nothing else. -/
theorem success_callback_writes (sanitize : String → String) (modal_html : String)
    (q : Page) :
    writes (success_callback sanitize modal_html q).log
      = writes q.log ++ [sanitize modal_html] := by
  rw [success_callback_eq]
  simp only [writes_append, success_effects, listed_installers, List.map, List.cons_append,
    List.nil_append, writes, List.append_nil]

/-- The timer callback writes nothing into the container. -/
theorem timeout_callback_writes (q : Page) :
    (timeout_callback q).innerHTML = q.innerHTML ∧
    writes (timeout_callback q).log = writes q.log := by
  cases hq : q.modal_loaded
  · rw [timeout_callback_not_loaded q hq]
    simp [writes_append, writes]
  · rw [timeout_callback_loaded q hq]
    exact ⟨rfl, rfl⟩

/-- The failure callback writes nothing into the container. -/
theorem fail_callback_writes (q : Page) :
    (fail_callback q).innerHTML = q.innerHTML ∧
    writes (fail_callback q).log = writes q.log := by
  rw [fail_callback_eq]
  simp [writes_append, writes]

/-- C6: for every sanitizer, fragment and page, the success callback writes
into the container exactly the output of the sanitizer on the fetched
fragment, and that is its only write; the timer and failure callbacks write
nothing into the container.  So after a successful load, in either order of
the success and timer callbacks, the container holds the sanitizer output and
the only string written during the load is that output.  Hence, when the
sanitizer output for the fragment holds no script tag, neither does the
container after the success callback, nor after a later timer or failure
callback, whatever the fetched fragment holds. -/
theorem container_gets_sanitized (sanitize : String → String) (p : Page) (k : Nat)
    (modal_url modal_html : String) :
    (success_callback sanitize modal_html p).innerHTML = sanitize modal_html ∧
    writes (success_callback sanitize modal_html p).log = writes p.log ++ [sanitize modal_html] ∧
    (∀ q : Page, (timeout_callback q).innerHTML = q.innerHTML ∧
      writes (timeout_callback q).log = writes q.log) ∧
    (∀ q : Page, (fail_callback q).innerHTML = q.innerHTML ∧
      writes (fail_callback q).log = writes q.log) ∧
    (∃ w : World,
      run sanitize (idle p k)
        [Event.invoke modal_url, Event.resolve k modal_html, Event.timeout k] = some w ∧
      w.page.innerHTML = sanitize modal_html ∧
      writes w.page.log = writes p.log ++ [sanitize modal_html]) ∧
    (∃ w : World,
      run sanitize (idle p k)
        [Event.invoke modal_url, Event.timeout k, Event.resolve k modal_html] = some w ∧
      w.page.innerHTML = sanitize modal_html ∧
      writes w.page.log = writes p.log ++ [sanitize modal_html]) ∧
    contains_script_tag (success_callback sanitize modal_html p).innerHTML
      = contains_script_tag (sanitize modal_html) ∧
    (contains_script_tag (sanitize modal_html) = false →
      contains_script_tag (success_callback sanitize modal_html p).innerHTML = false ∧
      contains_script_tag
        (timeout_callback (success_callback sanitize modal_html p)).innerHTML = false ∧
      contains_script_tag
        (fail_callback (success_callback sanitize modal_html p)).innerHTML = false) := by
  have hs := success_callback_innerHTML sanitize modal_html
  have hw := success_callback_writes sanitize modal_html
  have ht := timeout_callback_writes
  have hf := fail_callback_writes
  refine ⟨hs p, hw p, ht, hf, ?_, ?_, ?_, ?_⟩
  · refine ⟨{ started p k modal_url with
      page := timeout_callback
        (success_callback sanitize modal_html (started p k modal_url).page)
      timers := []
      fetches := [] }, ?_, ?_, ?_⟩
    · simp [run, step, generate_modal_idle, has_fetch, has_timer, started]
    · rw [World.page, (ht _).1, hs]
    · rw [World.page, (ht _).2, hw]
      simp [started, writes_append, writes]
  · refine ⟨{ started p k modal_url with
      page := success_callback sanitize modal_html
        (timeout_callback (started p k modal_url).page)
      timers := []
      fetches := [] }, ?_, ?_, ?_⟩
    · simp [run, step, generate_modal_idle, has_fetch, has_timer, started]
    · rw [World.page, hs]
    · rw [World.page, hw, (ht _).2]
      simp [started, writes_append, writes]
  · rw [hs]
  · intro h
    refine ⟨?_, ?_, ?_⟩
    · rw [hs]; exact h
    · rw [(ht _).1, hs]; exact h
    · rw [(hf _).1, hs]; exact h

/-- C6, at concrete inputs on the blank page.  With the sanitizer that deletes
angle brackets and a fragment holding a script tag, the container receives the
sanitizer output and holds no script tag.  With the sanitizer that returns its
input, the container receives that output as well, script tag included. -/
theorem container_gets_sanitized_witness :
    contains_script_tag "<p>hi</p><SCRIPT>alert(1)</script>" = true ∧
    contains_script_tag (strip_brackets "<p>hi</p><SCRIPT>alert(1)</script>") = false ∧
    (success_callback strip_brackets "<p>hi</p><SCRIPT>alert(1)</script>" blank).innerHTML
      = "phi/pSCRIPTalert(1)/script" ∧
    contains_script_tag
      (timeout_callback
        (success_callback strip_brackets "<p>hi</p><SCRIPT>alert(1)</script>"
          blank)).innerHTML = false ∧
    (success_callback (fun s => s) "<p title=\"<script>\">x</p>" blank).innerHTML
      = "<p title=\"<script>\">x</p>" :=
  ⟨by decide, by decide,
   ((container_gets_sanitized strip_brackets blank 0 "/modal"
      "<p>hi</p><SCRIPT>alert(1)</script>").1).trans (by decide),
   ((container_gets_sanitized strip_brackets blank 0 "/modal"
      "<p>hi</p><SCRIPT>alert(1)</script>").2.2.2.2.2.2.2 (by decide)).2.1,
   (container_gets_sanitized (fun s => s) blank 0 "/modal"
      "<p title=\"<script>\">x</p>").1⟩

/-- C10: two calls sharing the one flag.  The first call is made and its
request succeeds, so the content is loaded and visible; then a second call is
made, which resets the shared flag while its own request is pending; then the
timer of the first call fires.  Every step is enabled.  The timer finds
`modal_loaded` false, hides the loaded content and shows the loading
animation.  In the per-call variant of the design notes the same schedule is
enabled as well, and there the timer of the first call leaves the page
unchanged, with the content still visible. -/
theorem shared_flag_interference (sanitize : String → String) (p : Page) (k : Nat)
    (url1 url2 modal_html : String) :
    (∃ w1 w2 w3 w4 : World,
      step sanitize (idle p k) (Event.invoke url1) = some w1 ∧
      step sanitize w1 (Event.resolve k modal_html) = some w2 ∧
      step sanitize w2 (Event.invoke url2) = some w3 ∧
      step sanitize w3 (Event.timeout k) = some w4 ∧
      w2.page.modal_loaded = true ∧
      w2.page.modal_content = true ∧
      w2.page.loading_animation = false ∧
      w2.page.innerHTML = sanitize modal_html ∧
      w3.fetches = [(k + 1, url2)] ∧
      w3.page.modal_loaded = false ∧
      w3.page.modal_content = true ∧
      w3.page.loading_animation = false ∧
      w4.page.modal_content = false ∧
      w4.page.loading_animation = true ∧
      w4.page.innerHTML = sanitize modal_html ∧
      w4.page ≠ w3.page) ∧
    (∃ v1 v2 v3 v4 : PerCallWorld,
      percall_step sanitize (percall_idle p k) (Event.invoke url1) = some v1 ∧
      percall_step sanitize v1 (Event.resolve k modal_html) = some v2 ∧
      percall_step sanitize v2 (Event.invoke url2) = some v3 ∧
      percall_step sanitize v3 (Event.timeout k) = some v4 ∧
      v3.fetches = [(k + 1, url2)] ∧
      v4.page = v3.page ∧
      v4.page.modal_content = true ∧
      v4.page.loading_animation = false ∧
      v4.page.innerHTML = sanitize modal_html) := by
  constructor
  · refine ⟨started p k url1,
      { started p k url1 with
        page := success_callback sanitize modal_html (started p k url1).page
        fetches := [] },
      generate_modal url2 { started p k url1 with
        page := success_callback sanitize modal_html (started p k url1).page
        fetches := [] },
      { generate_modal url2 { started p k url1 with
          page := success_callback sanitize modal_html (started p k url1).page
          fetches := [] } with
        page := timeout_callback (generate_modal url2 { started p k url1 with
          page := success_callback sanitize modal_html (started p k url1).page
          fetches := [] }).page
        timers := [(k + 1, 300)] }, ?_, ?_, rfl, ?_, ?_, ?_, ?_, ?_, ?_, ?_, ?_, ?_, ?_, ?_,
      ?_, ?_⟩
    · simp [step, generate_modal_idle]
    · simp [step, has_fetch, started]
    · simp [step, has_timer, started, generate_modal]
    all_goals
      simp [success_callback_eq, timeout_callback_not_loaded, started, generate_modal]
  · refine ⟨
      { page := { p with log := p.log ++ [Effect.get_url url1] ++ [Effect.setTimeout 300] }
        loaded := [], fetches := [(k, url1)], timers := [(k, 300)], calls := k + 1 },
      { page := percall_success_callback sanitize modal_html
          { p with log := p.log ++ [Effect.get_url url1] ++ [Effect.setTimeout 300] }
        loaded := [k], fetches := [], timers := [(k, 300)], calls := k + 1 },
      { page :=
          { percall_success_callback sanitize modal_html
              { p with log := p.log ++ [Effect.get_url url1] ++ [Effect.setTimeout 300] } with
            log := (percall_success_callback sanitize modal_html
              { p with log := p.log ++ [Effect.get_url url1] ++ [Effect.setTimeout 300] }).log
                ++ [Effect.get_url url2] ++ [Effect.setTimeout 300] }
        loaded := [k], fetches := [(k + 1, url2)], timers := [(k, 300), (k + 1, 300)],
        calls := k + 2 },
      { page :=
          { percall_success_callback sanitize modal_html
              { p with log := p.log ++ [Effect.get_url url1] ++ [Effect.setTimeout 300] } with
            log := (percall_success_callback sanitize modal_html
              { p with log := p.log ++ [Effect.get_url url1] ++ [Effect.setTimeout 300] }).log
                ++ [Effect.get_url url2] ++ [Effect.setTimeout 300] }
        loaded := [k], fetches := [(k + 1, url2)], timers := [(k + 1, 300)],
        calls := k + 2 }, ?_, ?_, ?_, ?_, rfl, rfl, ?_, ?_, ?_⟩
    · simp [percall_step, percall_idle]
    · simp [percall_step]
    · simp [percall_step]
    · simp [percall_step, percall_timeout_callback]
    all_goals
      simp [percall_success_callback, set_innerHTML, loading_animation_hide,
        modal_content_show, modal_show, click_event]

end Conreq
